import Mathlib

/-!
Verification of the revenue/cost segments dashboard
(`LBB_DSS_AI_DASHBOARD.py`) against its natural-language specification.

The development shallowly embeds the parts of the program the claims are
about:

* the sanitizer `clean_python_code` (source line 47:
  `raw_code.strip().strip("\x60\x60\x60").replace("python", "").strip()`),
  modelled over `List Char` with faithful models of Python's
  `str.strip()`, `str.strip("\x60\x60\x60")` and `str.replace`;
* the generated-code executor in `visualize_segments` (source lines
  104-106: `exec_locals = \x7b\x7d; exec(code, \x7b\x7d, exec_locals);
  st.pyplot(exec_locals["fig"])`), modelled by a small-step interpreter
  for the Python fragment relevant to the claims (imports, assignments,
  zero-argument function definitions and calls) with CPython's name
  resolution rules for `exec` with two distinct dicts;
* the data pipeline `segments_summary` / `main` (source lines 50-59 and
  143-149), which contain no try/except: any exception raised by a
  section propagates and aborts the run.
-/

/-! ### Python string primitives (for `clean_python_code`, source line 47) -/

/-- Whitespace characters stripped by Python's `str.strip()`
(the ASCII ones; the source only ever produces these). -/
def isWS (c : Char) : Bool :=
  (c = ' ') || (c = '\t') || (c = '\n') || (c = '\r') || (c = '\x0b') || (c = '\x0c')

/-- The single character of the strip set `"\x60\x60\x60"`:
Python's `str.strip(chars)` strips any character that occurs in `chars`. -/
def isBacktick (c : Char) : Bool := c = '`'

/-- Strip matching characters from the left (`str.lstrip`). -/
def lstrip (p : Char → Bool) (s : List Char) : List Char := s.dropWhile p

/-- Strip matching characters from the right (`str.rstrip`). -/
def rstrip (p : Char → Bool) (s : List Char) : List Char :=
  (s.reverse.dropWhile p).reverse

/-- Python's `str.strip`: strip matching characters from both ends. -/
def pstrip (p : Char → Bool) (s : List Char) : List Char := rstrip p (lstrip p s)

/-- Worker for `replaceAll`, structurally recursive on a fuel that
bounds the length of the remaining string (each step consumes at least
one character, so `s.length` fuel always suffices). -/
def replaceAllAux (pat rep : List Char) : Nat → List Char → List Char
  | _, [] => []
  | 0, s => s
  | fuel + 1, c :: cs =>
    if pat ≠ [] ∧ pat.isPrefixOf (c :: cs) then
      rep ++ replaceAllAux pat rep fuel ((c :: cs).drop pat.length)
    else
      c :: replaceAllAux pat rep fuel cs

/-- Python's `str.replace pat rep`: replace every non-overlapping
occurrence of `pat`, scanning left to right and continuing after each
replacement (newly formed occurrences that span a replacement boundary
are not replaced, exactly as in CPython). The `pat ≠ []` guard only
serves to keep the fuel bound valid; the program always calls it with
`"python"`. -/
def replaceAll (pat rep : List Char) (s : List Char) : List Char :=
  replaceAllAux pat rep s.length s

/-- The pattern removed by the sanitizer's `.replace("python", "")`. -/
def pyTag : List Char := "python".toList

/-- Source line 45-47, `clean_python_code`:
`raw_code.strip().strip("\x60\x60\x60").replace("python", "").strip()`. -/
def clean_python_code (raw_code : List Char) : List Char :=
  pstrip isWS (replaceAll pyTag [] (pstrip isBacktick (pstrip isWS raw_code)))

/-- A model response wrapping a code body in a markdown fence with
language tag, as in spec scenario 3:
three backticks, `python`, newline, the body, newline, three backticks. -/
def fencedWrap (code : List Char) : List Char :=
  "```python\n".toList ++ code ++ "\n```".toList

/-! ### The generated-code executor (source lines 101-106)

`visualize_segments` runs `exec(code, \x7b\x7d, exec_locals)` and then
reads `exec_locals["fig"]`, with no `try`/`except` anywhere in the
script. The interpreter below models the Python fragment the generated
plotting code uses at the granularity the claims need: top-level
imports, assignments, zero-argument function definitions and calls,
with CPython's name-resolution rules for `exec` called with two
distinct dictionaries:

* top-level loads search the locals dict, then the globals dict, then
  the builtins (CPython seeds an otherwise-empty globals dict with
  `__builtins__`);
* top-level stores (assignments, imports, `def`) go to the locals dict
  only;
* a `def` captures the globals dict; its body resolves non-local names
  against that captured dict and the builtins — not against the
  `exec`-level locals dict.
-/

/-- Expressions allowed in the body of a generated zero-argument
function (a literal or a name; enough to model a body that refers to a
top-level import). -/
inductive BExpr where
  | lit : Int → BExpr
  | name : String → BExpr
deriving DecidableEq

/-- Runtime values of the modelled fragment. A closure records its body
and the globals dict it captured at `def` time (CPython's
`function.__globals__`). -/
inductive Val where
  | int : Int → Val
  | str : String → Val
  | module : String → Val
  | builtinFun : String → Val
  | pyNone : Val
  | closure : BExpr → List (String × Val) → Val

/-- A Python namespace dict: later bindings shadow earlier ones. -/
abbrev Env := List (String × Val)

/-- Top-level expressions of generated code. -/
inductive Expr where
  | lit : Int → Expr
  | strLit : String → Expr
  | name : String → Expr
  | call : String → Expr
deriving DecidableEq

/-- Top-level statements of generated code. -/
inductive Stmt where
  | assign : String → Expr → Stmt
  | imprt : String → Stmt
  | defFun : String → BExpr → Stmt
  | exprStmt : Expr → Stmt

/-- Faults the interpreter can raise; `keyError` also models the
`exec_locals["fig"]` dictionary lookup on source line 106. -/
inductive PyError where
  | nameError : String → PyError
  | keyError : String → PyError
  | typeError : PyError
deriving DecidableEq

/-- Dict lookup (first binding wins; `insert` conses). -/
def lookupEnv : Env → String → Option Val
  | [], _ => none
  | (k, v) :: rest, x => if k = x then some v else lookupEnv rest x

/-- The `__builtins__` CPython inserts into an empty globals dict passed
to `exec`; a fixed table disjoint from every application variable. -/
def pyBuiltins : Env :=
  [("len", Val.builtinFun "len"), ("print", Val.builtinFun "print"),
   ("abs", Val.builtinFun "abs"), ("range", Val.builtinFun "range")]

/-- Name resolution against a locals dict `l`, then a globals dict `g`,
then the builtins; unbound names raise `NameError`. -/
def lookupName (g l : Env) (x : String) : Except PyError Val :=
  match lookupEnv l x with
  | some v => Except.ok v
  | none =>
    match lookupEnv g x with
    | some v => Except.ok v
    | none =>
      match lookupEnv pyBuiltins x with
      | some v => Except.ok v
      | none => Except.error (PyError.nameError x)

/-- Evaluate a function body: the function's own locals are empty
(zero-argument, single-expression body), so names resolve against the
captured globals dict and the builtins only. -/
def evalBody (capturedG : Env) (b : BExpr) : Except PyError Val :=
  match b with
  | BExpr.lit n => Except.ok (Val.int n)
  | BExpr.name x => lookupName capturedG [] x

/-- Evaluate a top-level expression under globals `g` and locals `l`. -/
def evalExpr (g l : Env) : Expr → Except PyError Val
  | Expr.lit n => Except.ok (Val.int n)
  | Expr.strLit s => Except.ok (Val.str s)
  | Expr.name x => lookupName g l x
  | Expr.call f =>
    match lookupName g l f with
    | Except.error e => Except.error e
    | Except.ok (Val.closure body capturedG) => evalBody capturedG body
    | Except.ok (Val.builtinFun _) => Except.ok Val.pyNone
    | Except.ok _ => Except.error PyError.typeError

/-- Execute top-level statements: loads via `evalExpr`, stores into the
locals dict only (the globals dict `g` is never written, as in CPython
`exec` with two distinct dicts). -/
def execStmts (g : Env) : List Stmt → Env → Except PyError Env
  | [], l => Except.ok l
  | Stmt.assign x e :: rest, l =>
    match evalExpr g l e with
    | Except.error er => Except.error er
    | Except.ok v => execStmts g rest ((x, v) :: l)
  | Stmt.imprt m :: rest, l => execStmts g rest ((m, Val.module m) :: l)
  | Stmt.defFun f body :: rest, l => execStmts g rest ((f, Val.closure body g) :: l)
  | Stmt.exprStmt e :: rest, l =>
    match evalExpr g l e with
    | Except.error er => Except.error er
    | Except.ok _ => execStmts g rest l

/-- The `exec(code, g, l)` primitive: run the statements, returning the
final locals dict or the uncaught exception. -/
def pyExec (code : List Stmt) (g l : Env) : Except PyError Env :=
  execStmts g code l

/-- Source lines 101-106, the chart step of `visualize_segments`.
`callerScope` is the Python scope at the call site (`ticker`,
`data_segments`, `prompt`, `code`, plus the module globals such as
`llm` and the API keys); the source passes the empty dict literal and a
fresh `exec_locals` to `exec`, so the parameter is never consulted. An
`Except.error` result is the exception propagating out of the function
uncaught (there is no `try`/`except` in the script). -/
def visualize_segments (callerScope : Env) (code : List Stmt) : Except PyError Val :=
  match pyExec code [] [] with
  | Except.error e => Except.error e
  | Except.ok exec_locals =>
    match lookupEnv exec_locals "fig" with
    | some fig => Except.ok fig
    | none => Except.error (PyError.keyError "fig")

/-- Does a top-level expression mention the name `x` (as a load)? -/
def exprRefs (x : String) : Expr → Bool
  | Expr.name y => y = x
  | Expr.call f => f = x
  | _ => false

/-- Does a statement evaluate an expression mentioning `x` at top
level? (References inside a function body only run if the function is
called, so they are not counted here.) -/
def stmtRefs (x : String) : Stmt → Bool
  | Stmt.assign _ e => exprRefs x e
  | Stmt.exprStmt e => exprRefs x e
  | _ => false

/-- Some statement of the generated code references `x` at top level. -/
def topRefs (code : List Stmt) (x : String) : Bool := code.any (stmtRefs x)

/-- Does a statement bind the name `x` (assignment target, import,
`def`)? -/
def stmtBinds (x : String) : Stmt → Bool
  | Stmt.assign y _ => y = x
  | Stmt.imprt m => m = x
  | Stmt.defFun f _ => f = x
  | Stmt.exprStmt _ => false

/-- Some statement of the generated code binds `x`. -/
def stmtsBind (code : List Stmt) (x : String) : Bool := code.any (stmtBinds x)

/-! ### The data pipeline (source lines 50-59, 143-149)

`segments_summary` parses the API response; `main` then runs the four
sections strictly in sequence with no `try`/`except` anywhere, so the
first exception aborts the whole run and the remaining sections never
render. The language model itself is an external collaborator: its
textual outputs (the three insight texts and the generated code,
already parsed) are inputs of the model.
-/

/-- Parsed JSON values, as returned by `fetch_data` (source line 36,
`resp.json()`). -/
inductive JVal where
  | str : String → JVal
  | int : Int → JVal
  | arr : List JVal → JVal
  | obj : List (String × JVal) → JVal

/-- Association-list lookup in a JSON object. -/
def jFieldLookup : List (String × JVal) → String → Option JVal
  | [], _ => none
  | (k, v) :: rest, x => if k = x then some v else jFieldLookup rest x

/-- Subscripting a parsed JSON value by key (a non-object has no keys). -/
def jLookup : JVal → String → Option JVal
  | JVal.obj fields, k => jFieldLookup fields k
  | _, _ => none

/-- String content of a JSON value; the spec types `symbol` and
`source` as strings, and the pandas construction on lines 54-59 is
value-tolerant, so other shapes are collapsed to `""`. -/
def jStr : JVal → String
  | JVal.str s => s
  | _ => ""

/-- Integer content of a JSON value (`financial_year`, `value`). -/
def jInt : JVal → Int
  | JVal.int n => n
  | _ => 0

/-- Element list of a JSON array (`revenue_breakdown`). -/
def jArr : JVal → List JVal
  | JVal.arr xs => xs
  | _ => []

/-- One row of the dataset built by `segments_summary` (spec data model
`SegmentRecord`). -/
structure SegmentRecord where
  source : String
  value : Int
  symbol : String
  financial_year : Int
deriving DecidableEq

/-- Rows built from `revenue_breakdown`, each tagged with the top-level
`symbol` and `financial_year` (source lines 56-59: the scalar columns
broadcast over every row). -/
def segRowsOf (rb : List JVal) (sym : String) (yr : Int) : List SegmentRecord :=
  rb.map fun item =>
    { source := jStr ((jLookup item "source").getD (JVal.str ""))
      value := jInt ((jLookup item "value").getD (JVal.int 0))
      symbol := sym
      financial_year := yr }

/-- Source lines 54-59, the data-extraction part of `segments_summary`:
subscript the parsed response by `"revenue_breakdown"`, `"symbol"` and
`"financial_year"` in source order. A missing key raises an uncaught
exception (modelled as `keyError`; CPython raises `KeyError`/
`ValueError` out of the pandas constructions — either way nothing
catches it). -/
def segmentsStep (resp : JVal) : Except PyError (List SegmentRecord) :=
  match jLookup resp "revenue_breakdown" with
  | none => Except.error (PyError.keyError "revenue_breakdown")
  | some rb =>
    match jLookup resp "symbol" with
    | none => Except.error (PyError.keyError "symbol")
    | some symJ =>
      match jLookup resp "financial_year" with
      | none => Except.error (PyError.keyError "financial_year")
      | some yrJ => Except.ok (segRowsOf (jArr rb) (jStr symJ) (jInt yrJ))

/-! #### The prompt formatter (source lines 39-42, `run_llm`)

`PromptTemplate.from_template(t).format(data=df.to_string(index=False))`
renders the dataset as text and substitutes it for the `\x7bdata\x7d`
placeholder. `df.to_string` prints a header line and one line per row
with each cell's text verbatim (padding is whitespace around the cell). -/

/-- Decimal rendering of a numeric cell. -/
def renderInt (n : Int) : List Char := (toString n).toList

/-- One row of `DataFrame.to_string(index=False)`:
the four cells' texts separated by spacing. -/
def rowLine (r : SegmentRecord) : List Char :=
  r.source.toList ++ ' ' :: (renderInt r.value ++ ' ' :: (r.symbol.toList ++ ' ' :: renderInt r.financial_year))

/-- Header line of the rendered dataset. -/
def headerLine : List Char := "source value symbol financial_year".toList

/-- Body of the rendered dataset: one line per row. -/
def tableBody : List SegmentRecord → List Char
  | [] => []
  | r :: rs => '\n' :: (rowLine r ++ tableBody rs)

/-- `data_segments.to_string(index=False)` (source line 41). -/
def df_to_string (rows : List SegmentRecord) : List Char :=
  headerLine ++ tableBody rows

/-- The `\x7bdata\x7d` placeholder of every prompt template in the
script. -/
def dataPlaceholder : List Char := "{data}".toList

/-- Source line 41: substitute the rendered dataset for the placeholder
in the template. -/
def run_llm_prompt (template : List Char) (rows : List SegmentRecord) : List Char :=
  replaceAll dataPlaceholder (df_to_string rows) template

/-- The collapsible UI sections `main` can render (source lines 75-76,
103-106, 124-125, 139-140). -/
inductive SectionR where
  | summary : String → SectionR
  | chart : Val → SectionR
  | interpretation : String → SectionR
  | risk : String → SectionR

/-- Result of one button press: either all four sections rendered, or
an uncaught exception aborted the run after the listed sections. -/
inductive RunResult where
  | completed : List SectionR → RunResult
  | crashed : PyError → List SectionR → RunResult

/-- Source lines 143-149, the body of `main` after the button press:
`segments_summary`, `visualize_segments`, `interpret_segments`,
`risk_analysis` in sequence, with no exception handling. `resp` is the
parsed API response, `summaryText`/`interpText`/`riskText` the language
model's free-text outputs and `chartCode` its generated code after
sanitization. -/
def mainRun (ticker : String) (resp : JVal) (summaryText : String)
    (chartCode : List Stmt) (interpText riskText : String) : RunResult :=
  match segmentsStep resp with
  | Except.error e => RunResult.crashed e []
  | Except.ok _rows =>
    match visualize_segments [("ticker", Val.str ticker)] chartCode with
    | Except.error e => RunResult.crashed e [SectionR.summary summaryText]
    | Except.ok fig =>
      RunResult.completed
        [SectionR.summary summaryText, SectionR.chart fig,
         SectionR.interpretation interpText, SectionR.risk riskText]

/-- The two-segment `"BBCA"` 2023 response of spec scenario 1. -/
def respBBCA : JVal :=
  JVal.obj
    [("symbol", JVal.str "BBCA"), ("financial_year", JVal.int 2023),
     ("revenue_breakdown",
      JVal.arr
        [JVal.obj [("source", JVal.str "Retail Banking"), ("value", JVal.int 5000000000000)],
         JVal.obj [("source", JVal.str "Corporate Banking"), ("value", JVal.int 3000000000000)]])]

/-- The dataset `segmentsStep` builds from `respBBCA`. -/
def rowsBBCA : List SegmentRecord :=
  [{ source := "Retail Banking", value := 5000000000000, symbol := "BBCA", financial_year := 2023 },
   { source := "Corporate Banking", value := 3000000000000, symbol := "BBCA", financial_year := 2023 }]

/-! ### Helper lemmas about the string primitives -/

theorem dropWhile_idem (p : Char → Bool) (l : List Char) :
    (l.dropWhile p).dropWhile p = l.dropWhile p := by
  induction l with
  | nil => rfl
  | cons c cs ih =>
    by_cases h : p c
    · simp [List.dropWhile_cons, h, ih]
    · simp [List.dropWhile_cons, h]

theorem rstrip_isPrefix (p : Char → Bool) (l : List Char) : rstrip p l <+: l := by
  refine ⟨(l.reverse.takeWhile p).reverse, ?_⟩
  rw [rstrip, ← List.reverse_append, List.takeWhile_append_dropWhile, List.reverse_reverse]

theorem lstrip_eq_self_of_isPrefix {p : Char → Bool} {s l : List Char}
    (hl : l.dropWhile p = l) (hs : s <+: l) : s.dropWhile p = s := by
  cases s with
  | nil => rfl
  | cons c cs =>
    obtain ⟨r, hr⟩ := hs
    by_cases hc : p c
    · exfalso
      have : l.dropWhile p = (cs ++ r).dropWhile p := by
        rw [← hr]; simp [List.dropWhile_cons, hc]
      have hlen : (l.dropWhile p).length ≤ (cs ++ r).length := by
        rw [this]; exact (List.dropWhile_sublist p).length_le
      rw [hl, ← hr] at hlen
      simp at hlen
    · simp [List.dropWhile_cons, hc]

theorem rstrip_idem (p : Char → Bool) (l : List Char) :
    rstrip p (rstrip p l) = rstrip p l := by
  simp [rstrip, List.reverse_reverse, dropWhile_idem]

theorem pstrip_idem (p : Char → Bool) (x : List Char) :
    pstrip p (pstrip p x) = pstrip p x := by
  have h1 : lstrip p (lstrip p x) = lstrip p x := dropWhile_idem p x
  have h2 : lstrip p (pstrip p x) = pstrip p x :=
    lstrip_eq_self_of_isPrefix h1 (rstrip_isPrefix p (lstrip p x))
  calc pstrip p (pstrip p x) = rstrip p (pstrip p x) := by rw [pstrip, h2]
    _ = pstrip p x := rstrip_idem p (lstrip p x)

theorem replaceAllAux_fuel {pat rep : List Char} :
    ∀ (fuel₁ fuel₂ : Nat) (s : List Char), s.length ≤ fuel₁ → s.length ≤ fuel₂ →
      replaceAllAux pat rep fuel₁ s = replaceAllAux pat rep fuel₂ s := by
  intro fuel₁
  induction fuel₁ with
  | zero =>
    intro fuel₂ s h1 _
    have : s = [] := List.eq_nil_of_length_eq_zero (Nat.le_zero.mp h1)
    subst this
    cases fuel₂ <;> rfl
  | succ f₁ ih =>
    intro fuel₂ s h1 h2
    cases s with
    | nil => cases fuel₂ <;> rfl
    | cons c cs =>
      cases fuel₂ with
      | zero => simp at h2
      | succ f₂ =>
        simp only [replaceAllAux]
        by_cases hc : pat ≠ [] ∧ pat.isPrefixOf (c :: cs)
        · simp only [if_pos hc]
          have hplen : 0 < pat.length := List.length_pos.mpr hc.1
          have hd : ((c :: cs).drop pat.length).length ≤ cs.length := by
            simp only [List.length_drop, List.length_cons]
            omega
          rw [ih f₂ _ (le_trans hd (Nat.le_of_succ_le_succ h1))
            (le_trans hd (Nat.le_of_succ_le_succ h2))]
        · simp only [if_neg hc]
          rw [ih f₂ cs (Nat.le_of_succ_le_succ h1) (Nat.le_of_succ_le_succ h2)]

theorem replaceAllAux_adequate {pat rep : List Char} {fuel : Nat} {s : List Char}
    (h : s.length ≤ fuel) : replaceAllAux pat rep fuel s = replaceAll pat rep s :=
  replaceAllAux_fuel fuel s.length s h le_rfl

theorem replaceAll_eq_self_of_no_occ {pat rep s : List Char} (h : ¬ pat <:+: s) :
    replaceAll pat rep s = s := by
  suffices haux : ∀ (fuel : Nat) (t : List Char), ¬ pat <:+: t →
      replaceAllAux pat rep fuel t = t by
    exact haux s.length s h
  intro fuel
  induction fuel with
  | zero => intro t _; cases t <;> rfl
  | succ f ih =>
    intro t ht
    cases t with
    | nil => rfl
    | cons c cs =>
      have hnp : ¬ (pat ≠ [] ∧ pat.isPrefixOf (c :: cs)) := by
        rintro ⟨-, hpre⟩
        exact ht (List.IsPrefix.isInfix (List.isPrefixOf_iff_prefix.mp hpre))
      simp only [replaceAllAux, if_neg hnp]
      rw [ih cs fun hin => ht (List.infix_cons hin)]

theorem replaceAll_head_match {pat rep rest : List Char} (hne : pat ≠ []) :
    replaceAll pat rep (pat ++ rest) = rep ++ replaceAll pat rep rest := by
  obtain ⟨c, pt, hpat⟩ := List.exists_cons_of_ne_nil hne
  have hform : pat ++ rest = c :: (pt ++ rest) := by rw [hpat]; rfl
  have hlen : (pat ++ rest).length = (pt ++ rest).length + 1 := by
    rw [hpat]; simp
  rw [replaceAll, hlen, hform]
  have hcond : pat ≠ [] ∧ pat.isPrefixOf (c :: (pt ++ rest)) := by
    refine ⟨hne, List.isPrefixOf_iff_prefix.mpr ?_⟩
    rw [← hform]
    exact List.prefix_append pat rest
  simp only [replaceAllAux, if_pos hcond]
  have hdrop : (c :: (pt ++ rest)).drop pat.length = rest := by
    rw [← hform, List.drop_left]
  rw [hdrop]
  exact congrArg (rep ++ ·) (replaceAllAux_adequate (by simp))

theorem rep_infix_replaceAll {pat rep s : List Char} (hne : pat ≠ []) (h : pat <:+: s) :
    rep <:+: replaceAll pat rep s := by
  suffices haux : ∀ (fuel : Nat) (t : List Char), t.length ≤ fuel → pat <:+: t →
      rep <:+: replaceAllAux pat rep fuel t by
    exact haux s.length s le_rfl h
  intro fuel
  induction fuel with
  | zero =>
    intro t hf ht
    have : t = [] := List.eq_nil_of_length_eq_zero (Nat.le_zero.mp hf)
    subst this
    exact absurd (List.eq_nil_of_infix_nil ht) hne
  | succ f ih =>
    intro t hf ht
    cases t with
    | nil => exact absurd (List.eq_nil_of_infix_nil ht) hne
    | cons c cs =>
      by_cases hc : pat ≠ [] ∧ pat.isPrefixOf (c :: cs)
      · simp only [replaceAllAux, if_pos hc]
        exact List.IsPrefix.isInfix (List.prefix_append rep _)
      · simp only [replaceAllAux, if_neg hc]
        have hnotpre : ¬ pat <+: (c :: cs) := fun hp =>
          hc ⟨hne, List.isPrefixOf_iff_prefix.mpr hp⟩
        rcases List.infix_cons_iff.mp ht with hp | hi
        · exact absurd hp hnotpre
        · exact List.infix_cons (ih cs (Nat.le_of_succ_le_succ hf) hi)

theorem infix_cons_elim_of_not_mem {p s : List Char} {c : Char}
    (hc : c ∉ p) (h : p <:+: (c :: s)) : p <:+: s := by
  obtain ⟨l, r, hlr⟩ := h
  cases l with
  | nil =>
    cases p with
    | nil => exact List.nil_infix
    | cons a p' =>
      simp only [List.nil_append, List.cons_append, List.cons.injEq] at hlr
      exact absurd (hlr.1 ▸ List.mem_cons_self a p') (hlr.1 ▸ hc)
  | cons a l' =>
    simp only [List.cons_append, List.cons.injEq] at hlr
    exact ⟨l', r, hlr.2⟩

theorem infix_concat_elim_of_not_mem {p s : List Char} {c : Char}
    (hc : c ∉ p) (h : p <:+: (s ++ [c])) : p <:+: s := by
  have hrev : p.reverse <:+: (c :: s.reverse) := by
    have := List.IsInfix.reverse h
    simpa using this
  have := infix_cons_elim_of_not_mem (by simpa using hc) hrev
  have := List.IsInfix.reverse this
  simpa using this

theorem dropWhile_cons_false {p : Char → Bool} {c : Char} (h : p c = false)
    (l : List Char) : (c :: l).dropWhile p = c :: l := by
  simp [List.dropWhile_cons, h]

theorem dropWhile_cons_true {p : Char → Bool} {c : Char} (h : p c = true)
    (l : List Char) : (c :: l).dropWhile p = l.dropWhile p := by
  simp [List.dropWhile_cons, h]

/-- Cons-normal form of the fenced model response. -/
theorem fencedWrap_eq (code : List Char) :
    fencedWrap code
      = '`' :: '`' :: '`' :: 'p' :: 'y' :: 't' :: 'h' :: 'o' :: 'n' :: '\n'
        :: (code ++ '\n' :: '`' :: '`' :: '`' :: []) := by
  simp [fencedWrap]

/-- The first `strip()` leaves a fenced response unchanged: it begins
and ends with a backtick. -/
theorem pstrip_ws_fencedWrap (code : List Char) :
    pstrip isWS (fencedWrap code) = fencedWrap code := by
  have hl : lstrip isWS (fencedWrap code) = fencedWrap code := by
    rw [fencedWrap_eq]
    exact dropWhile_cons_false (by decide) _
  have hrev : (fencedWrap code).reverse
      = '`' :: '`' :: '`' :: '\n'
        :: (code.reverse ++ '\n' :: 'n' :: 'o' :: 'h' :: 't' :: 'y' :: 'p' :: '`' :: '`' :: '`' :: []) := by
    rw [fencedWrap_eq]
    simp
  rw [pstrip, hl, rstrip, hrev, dropWhile_cons_false (by decide), ← hrev,
    List.reverse_reverse]

/-- The `strip("\x60\x60\x60")` step peels exactly the two fences: what
remains is the language tag, a newline, the body, a newline. -/
theorem pstrip_bt_fencedWrap (code : List Char) :
    pstrip isBacktick (fencedWrap code) = pyTag ++ '\n' :: (code ++ ['\n']) := by
  have hl : lstrip isBacktick (fencedWrap code)
      = 'p' :: 'y' :: 't' :: 'h' :: 'o' :: 'n' :: '\n' :: (code ++ '\n' :: '`' :: '`' :: '`' :: []) := by
    rw [fencedWrap_eq, lstrip, dropWhile_cons_true (by decide),
      dropWhile_cons_true (by decide), dropWhile_cons_true (by decide),
      dropWhile_cons_false (by decide)]
  have hrev : ('p' :: 'y' :: 't' :: 'h' :: 'o' :: 'n' :: '\n'
        :: (code ++ '\n' :: '`' :: '`' :: '`' :: [])).reverse
      = '`' :: '`' :: '`' :: '\n'
        :: (code.reverse ++ '\n' :: 'n' :: 'o' :: 'h' :: 't' :: 'y' :: 'p' :: []) := by
    simp
  rw [pstrip, hl, rstrip, hrev, dropWhile_cons_true (by decide),
    dropWhile_cons_true (by decide), dropWhile_cons_true (by decide),
    dropWhile_cons_false (by decide)]
  simp [pyTag]

/-- Removing the tag occurrences from the tag-prefixed remainder: the
leading `"python"` goes, and a body without the pattern is untouched
(the pattern contains no newline, so the padding cannot create one). -/
theorem replace_tag_step {code : List Char} (h : ¬ pyTag <:+: code) :
    replaceAll pyTag [] (pyTag ++ '\n' :: (code ++ ['\n'])) = '\n' :: (code ++ ['\n']) := by
  have hno : ¬ pyTag <:+: ('\n' :: (code ++ ['\n'])) := fun hin =>
    h (infix_concat_elim_of_not_mem (by decide)
      (infix_cons_elim_of_not_mem (by decide) hin))
  rw [replaceAll_head_match (by decide), replaceAll_eq_self_of_no_occ hno]
  rfl

/-- The final `strip()` removes exactly the two padding newlines when
the body itself has no leading or trailing whitespace. -/
theorem pstrip_ws_padded {code : List Char}
    (hl : code.dropWhile isWS = code)
    (hr : code.reverse.dropWhile isWS = code.reverse) :
    pstrip isWS ('\n' :: (code ++ ['\n'])) = code := by
  by_cases hc : code = []
  · subst hc
    rfl
  · have hempty : (code.dropWhile isWS).isEmpty = false := by
      rw [hl]
      cases code with
      | nil => exact absurd rfl hc
      | cons a l => rfl
    have hstep : lstrip isWS ('\n' :: (code ++ ['\n'])) = code ++ ['\n'] := by
      rw [lstrip, dropWhile_cons_true (by decide), List.dropWhile_append, hempty]
      simp only [Bool.false_eq_true, if_false, hl]
    rw [pstrip, hstep, rstrip]
    have h2 : (code ++ ['\n']).reverse = '\n' :: code.reverse := by simp
    rw [h2, dropWhile_cons_true (by decide), hr, List.reverse_reverse]

/-! ### Claim C4 — sanitization of a fenced response -/

/-- Claim C4 is false as stated: sanitization does not return the code
body verbatim for every body. `str.replace("python", "")` deletes every
occurrence of `"python"` inside the body, not only the language tag:
the fenced body `x = 'python'` comes back as `x = ''`, an altered
source statement. -/
theorem c4_fence_strip_counterexample :
    clean_python_code (fencedWrap ("x = 'python'".toList)) ≠ "x = 'python'".toList ∧
    clean_python_code (fencedWrap ("x = 'python'".toList)) = "x = ''".toList := by
  decide

/-- Claim C4 (amended): for a model response that wraps a code body in
a fence with language tag, sanitization strips exactly the fence
delimiters and the tag and returns the body verbatim, provided the body
contains no occurrence of the substring `"python"` (otherwise those
occurrences are deleted too) and has no leading or trailing whitespace
of its own (otherwise the final `strip()` removes it). -/
theorem c4_fence_strip_amended (code : List Char)
    (hpy : ¬ pyTag <:+: code)
    (hl : code.dropWhile isWS = code)
    (hr : code.reverse.dropWhile isWS = code.reverse) :
    clean_python_code (fencedWrap code) = code := by
  rw [clean_python_code, pstrip_ws_fencedWrap, pstrip_bt_fencedWrap,
    replace_tag_step hpy, pstrip_ws_padded hl hr]

/-- Witness for C4 (amended) on a concrete fenced plotting line. -/
theorem c4_fence_strip_witness :
    clean_python_code (fencedWrap ("fig, ax = plt.subplots()".toList))
      = "fig, ax = plt.subplots()".toList :=
  c4_fence_strip_amended ("fig, ax = plt.subplots()".toList)
    (by decide) (by decide) (by decide)

/-! ### Claim C5 — idempotence of sanitization -/

/-- Claim C5 is false as stated: the sanitizer is not idempotent on its
own outputs. `"pypythonthon"` is itself a sanitizer output (first
conjunct), yet sanitizing it yields `"python"` — deleting the inner
occurrence of the pattern creates a new one — and sanitizing once more
yields `""`, so the second application changes the result. -/
theorem c5_idempotence_counterexample :
    clean_python_code ("pypypythonthonthon".toList) = "pypythonthon".toList ∧
    clean_python_code (clean_python_code ("pypythonthon".toList))
      ≠ clean_python_code ("pypythonthon".toList) := by
  decide

/-- Claim C5 (amended): sanitization is idempotent on exactly the
inputs whose sanitized form neither contains the substring `"python"`
nor begins or ends with a backtick; sanitizer outputs can violate this
because deleting `"python"` may create a new occurrence. -/
theorem c5_idempotent_on_stable_outputs (s : List Char)
    (hpy : ¬ pyTag <:+: clean_python_code s)
    (hbl : (clean_python_code s).dropWhile isBacktick = clean_python_code s)
    (hbr : (clean_python_code s).reverse.dropWhile isBacktick = (clean_python_code s).reverse) :
    clean_python_code (clean_python_code s) = clean_python_code s := by
  have hws : pstrip isWS (clean_python_code s) = clean_python_code s := by
    rw [clean_python_code]
    exact pstrip_idem isWS _
  have hbt : pstrip isBacktick (clean_python_code s) = clean_python_code s := by
    rw [pstrip, lstrip, hbl, rstrip, hbr, List.reverse_reverse]
  calc clean_python_code (clean_python_code s)
      = pstrip isWS (replaceAll pyTag []
          (pstrip isBacktick (pstrip isWS (clean_python_code s)))) := rfl
    _ = clean_python_code s := by
        rw [hws, hbt, replaceAll_eq_self_of_no_occ hpy, hws]

/-- Witness for C5 (amended): a typical fenced import line sanitizes to
a stable string, on which a second pass changes nothing. -/
theorem c5_idempotent_witness :
    clean_python_code (clean_python_code ("```python\nimport matplotlib\n```".toList))
      = clean_python_code ("```python\nimport matplotlib\n```".toList) :=
  c5_idempotent_on_stable_outputs ("```python\nimport matplotlib\n```".toList)
    (by decide) (by decide) (by decide)

/-! ### Claim C8 — the rendered prompt contains the dataset -/

theorem rowLine_infix_tableBody {r : SegmentRecord} {rows : List SegmentRecord}
    (h : r ∈ rows) : rowLine r <:+: tableBody rows := by
  induction rows with
  | nil => cases h
  | cons a rs ih =>
    rcases List.mem_cons.mp h with heq | hmem
    · subst heq
      exact ⟨['\n'], tableBody rs, by simp [tableBody]⟩
    · obtain ⟨u, v, huv⟩ := ih hmem
      exact ⟨'\n' :: (rowLine a ++ u), v, by simp [tableBody, ← huv, List.append_assoc]⟩

theorem source_infix_rowLine (r : SegmentRecord) : r.source.toList <:+: rowLine r :=
  ⟨[], ' ' :: (renderInt r.value ++ ' ' :: (r.symbol.toList ++ ' ' :: renderInt r.financial_year)),
    by simp [rowLine]⟩

theorem value_infix_rowLine (r : SegmentRecord) : renderInt r.value <:+: rowLine r :=
  ⟨r.source.toList ++ [' '],
    ' ' :: (r.symbol.toList ++ ' ' :: renderInt r.financial_year),
    by simp [rowLine, List.append_assoc]⟩

/-- Claim C8: for every dataset, the rendered prompt — the template
with the dataset substituted for the `\x7bdata\x7d` placeholder as on
source line 41 — contains every row's `source` text and every row's
numeric `value` rendering as plain text. -/
theorem prompt_contains_sources_and_values (template : List Char)
    (rows : List SegmentRecord) (r : SegmentRecord)
    (htemp : dataPlaceholder <:+: template) (hmem : r ∈ rows) :
    r.source.toList <:+: run_llm_prompt template rows ∧
    renderInt r.value <:+: run_llm_prompt template rows := by
  have hrep : df_to_string rows <:+: run_llm_prompt template rows :=
    rep_infix_replaceAll (by decide) htemp
  have hrow : rowLine r <:+: df_to_string rows := by
    have h1 : rowLine r <:+: tableBody rows := rowLine_infix_tableBody hmem
    have h2 : tableBody rows <:+: df_to_string rows :=
      ⟨headerLine, [], by simp [df_to_string]⟩
    exact h1.trans h2
  exact ⟨((source_infix_rowLine r).trans hrow).trans hrep,
    ((value_infix_rowLine r).trans hrow).trans hrep⟩

/-- Witness for C8 on the `"BBCA"` two-segment dataset of spec
scenario 1: the first segment's name and value occur in the rendered
prompt. -/
theorem c8_prompt_witness :
    "Retail Banking".toList
        <:+: run_llm_prompt ("Analisis:\n{data}\nBuat 3 poin.".toList) rowsBBCA ∧
    renderInt 5000000000000
        <:+: run_llm_prompt ("Analisis:\n{data}\nBuat 3 poin.".toList) rowsBBCA :=
  prompt_contains_sources_and_values ("Analisis:\n{data}\nBuat 3 poin.".toList) rowsBBCA
    { source := "Retail Banking", value := 5000000000000, symbol := "BBCA", financial_year := 2023 }
    (by decide) (by decide)

/-! ### Claim C9 — all rows share the top-level symbol and year -/

/-- Claim C9: for a response of the expected shape, every row of the
dataset built by `segments_summary` (source lines 54-59) carries the
top-level `symbol` and `financial_year` of that response. -/
theorem rows_share_symbol_year (resp : JVal) (rows : List SegmentRecord)
    (sym : String) (yr : Int) (r : SegmentRecord)
    (hsym : jLookup resp "symbol" = some (JVal.str sym))
    (hyr : jLookup resp "financial_year" = some (JVal.int yr))
    (hok : segmentsStep resp = Except.ok rows)
    (hr : r ∈ rows) :
    r.symbol = sym ∧ r.financial_year = yr := by
  unfold segmentsStep at hok
  cases hrb : jLookup resp "revenue_breakdown" with
  | none => rw [hrb] at hok; cases hok
  | some rb =>
    rw [hrb, hsym, hyr] at hok
    have hrows : segRowsOf (jArr rb) sym yr = rows := by
      simpa [jStr, jInt] using hok
    rw [← hrows] at hr
    simp only [segRowsOf, List.mem_map] at hr
    obtain ⟨item, -, hitem⟩ := hr
    rw [← hitem]
    exact ⟨rfl, rfl⟩

/-! ### Claims C1 and C10 — isolation of the generated-code executor -/

theorem lookupName_none {g l : Env} {x : String}
    (hg : lookupEnv g x = none) (hl : lookupEnv l x = none)
    (hb : lookupEnv pyBuiltins x = none) :
    lookupName g l x = Except.error (PyError.nameError x) := by
  simp [lookupName, hl, hg, hb]

theorem evalExpr_unbound (l : Env) (x : String) (e : Expr)
    (he : exprRefs x e = true) (hl : lookupEnv l x = none)
    (hb : lookupEnv pyBuiltins x = none) :
    evalExpr [] l e = Except.error (PyError.nameError x) := by
  have hg : lookupEnv ([] : Env) x = none := rfl
  cases e with
  | lit n => simp [exprRefs] at he
  | strLit s => simp [exprRefs] at he
  | name y =>
    have hy : y = x := by simpa [exprRefs] using he
    subst hy
    simp [evalExpr, lookupName_none hg hl hb]
  | call f =>
    have hf : f = x := by simpa [exprRefs] using he
    subst hf
    simp [evalExpr, lookupName_none hg hl hb]

/-- Core isolation lemma: executing under the empty globals dict of
source line 105, code that references a name it never binds — and that
is no builtin — cannot run to completion, whatever that name is bound
to anywhere else in the process. -/
theorem exec_unbound_ref_fails :
    ∀ (code : List Stmt) (l : Env) (x : String),
      topRefs code x = true → stmtsBind code x = false →
      lookupEnv pyBuiltins x = none → lookupEnv l x = none →
      ∃ e, execStmts [] code l = Except.error e := by
  intro code
  induction code with
  | nil =>
    intro l x htop _ _ _
    simp [topRefs] at htop
  | cons s rest ih =>
    intro l x htop hbind hb hl
    have hbind1 : stmtBinds x s = false ∧ stmtsBind rest x = false := by
      simpa [stmtsBind, List.any_cons, Bool.or_eq_false_iff] using hbind
    have htop1 : stmtRefs x s = true ∨ topRefs rest x = true := by
      simpa [topRefs, List.any_cons, Bool.or_eq_true] using htop
    rcases htop1 with hs | hrest
    · cases s with
      | assign y e =>
        have he : exprRefs x e = true := by simpa [stmtRefs] using hs
        exact ⟨PyError.nameError x, by simp [execStmts, evalExpr_unbound l x e he hl hb]⟩
      | exprStmt e =>
        have he : exprRefs x e = true := by simpa [stmtRefs] using hs
        exact ⟨PyError.nameError x, by simp [execStmts, evalExpr_unbound l x e he hl hb]⟩
      | imprt m => simp [stmtRefs] at hs
      | defFun f b => simp [stmtRefs] at hs
    · cases s with
      | assign y e =>
        cases hev : evalExpr [] l e with
        | error er => exact ⟨er, by simp [execStmts, hev]⟩
        | ok v =>
          have hy : ¬ y = x := by
            have := hbind1.1
            simpa [stmtBinds] using this
          have hl' : lookupEnv ((y, v) :: l) x = none := by
            simp [lookupEnv, hy, hl]
          obtain ⟨er, her⟩ := ih ((y, v) :: l) x hrest hbind1.2 hb hl'
          exact ⟨er, by simp [execStmts, hev, her]⟩
      | imprt m =>
        have hm : ¬ m = x := by
          have := hbind1.1
          simpa [stmtBinds] using this
        have hl' : lookupEnv ((m, Val.module m) :: l) x = none := by
          simp [lookupEnv, hm, hl]
        obtain ⟨er, her⟩ := ih ((m, Val.module m) :: l) x hrest hbind1.2 hb hl'
        exact ⟨er, by simp [execStmts, her]⟩
      | defFun f b =>
        have hf : ¬ f = x := by
          have := hbind1.1
          simpa [stmtBinds] using this
        have hl' : lookupEnv ((f, Val.closure b []) :: l) x = none := by
          simp [lookupEnv, hf, hl]
        obtain ⟨er, her⟩ := ih ((f, Val.closure b []) :: l) x hrest hbind1.2 hb hl'
        exact ⟨er, by simp [execStmts, her]⟩
      | exprStmt e =>
        cases hev : evalExpr [] l e with
        | error er => exact ⟨er, by simp [execStmts, hev]⟩
        | ok v =>
          obtain ⟨er, her⟩ := ih l x hrest hbind1.2 hb hl
          exact ⟨er, by simp [execStmts, hev, her]⟩

/-- Claim C1: the chart step of `visualize_segments` runs the generated
code in a restricted namespace. First conjunct: the result is the same
whatever the caller's scope holds — `exec` receives the empty dict
literal and a fresh `exec_locals`, never the caller's bindings. Second
conjunct: code referencing a name it neither defines nor imports (and
that is no builtin) never silently succeeds by picking up an ambient
value — execution fails even if the surrounding scope binds that very
name. -/
theorem c1_restricted_namespace (scope₁ scope₂ : Env) (code : List Stmt) (x : String)
    (href : topRefs code x = true) (hbind : stmtsBind code x = false)
    (hbuiltin : lookupEnv pyBuiltins x = none) :
    visualize_segments scope₁ code = visualize_segments scope₂ code ∧
    ∃ e, visualize_segments scope₁ code = Except.error e := by
  refine ⟨rfl, ?_⟩
  obtain ⟨e, he⟩ := exec_unbound_ref_fails code [] x href hbind hbuiltin rfl
  exact ⟨e, by simp [visualize_segments, pyExec, he]⟩

/-- Witness for C1: generated code reads `data_segments`, a caller
variable that is bound (to a string here) in the caller's scope; the
executor still fails instead of picking it up. -/
theorem c1_restricted_witness :
    topRefs [Stmt.assign "y" (Expr.name "data_segments")] "data_segments" = true ∧
    stmtsBind [Stmt.assign "y" (Expr.name "data_segments")] "data_segments" = false ∧
    lookupEnv pyBuiltins "data_segments" = none ∧
    ∃ e, visualize_segments [("data_segments", Val.str "rows")]
        [Stmt.assign "y" (Expr.name "data_segments")] = Except.error e :=
  ⟨rfl, rfl, rfl,
    (c1_restricted_namespace [("data_segments", Val.str "rows")] []
      [Stmt.assign "y" (Expr.name "data_segments")] "data_segments" rfl rfl rfl).2⟩

/-- Claim C10: `exec(code, \x7b\x7d, exec_locals)` records top-level
bindings (imports included) in the locals dict only, while a `def`
captures the (empty) globals dict; so code that imports a module, then
defines a function whose body reads that module, then calls the
function, raises an unbound-name fault — the body resolves names
against the captured empty globals and the builtins, not against the
locals holding the import. -/
theorem c10_import_invisible_in_function (m f : String) (hfm : f ≠ m)
    (hb : lookupEnv pyBuiltins m = none) :
    (∃ l, pyExec [Stmt.imprt m, Stmt.defFun f (BExpr.name m)] [] [] = Except.ok l ∧
        lookupEnv l m = some (Val.module m)) ∧
    ∀ scope, visualize_segments scope
        [Stmt.imprt m, Stmt.defFun f (BExpr.name m), Stmt.exprStmt (Expr.call f)]
      = Except.error (PyError.nameError m) := by
  constructor
  · refine ⟨[(f, Val.closure (BExpr.name m) []), (m, Val.module m)], rfl, ?_⟩
    simp [lookupEnv, hfm]
  · intro scope
    have h1 : lookupName [] [(f, Val.closure (BExpr.name m) []), (m, Val.module m)] f
        = Except.ok (Val.closure (BExpr.name m) []) := by
      simp [lookupName, lookupEnv]
    have h2 : lookupName ([] : Env) ([] : Env) m = Except.error (PyError.nameError m) :=
      lookupName_none rfl rfl hb
    simp [visualize_segments, pyExec, execStmts, evalExpr, h1, evalBody, h2]

/-- Witness for C10: `import matplotlib` followed by a function whose
body reads `matplotlib`, then a call — the run fails with a
`matplotlib` name fault even though the import succeeded. -/
theorem c10_import_witness :
    lookupEnv pyBuiltins "matplotlib" = none ∧
    visualize_segments []
        [Stmt.imprt "matplotlib", Stmt.defFun "make_plot" (BExpr.name "matplotlib"),
         Stmt.exprStmt (Expr.call "make_plot")]
      = Except.error (PyError.nameError "matplotlib") :=
  ⟨rfl, (c10_import_invisible_in_function "matplotlib" "make_plot" (by decide) rfl).2 []⟩

/-! ### Claims C2, C3, C6, C7 — error handling -/

/-- Claim C2 is false as stated: an execution fault in the generated
code is not caught and reported; nothing in the script wraps the
`exec` of source line 105 in a handler, so the exception aborts the
hosting run — here a run on the well-formed `"BBCA"` response crashes
on an unbound name, the interpretation and risk sections never render
and no `ExecutionError` report exists. -/
theorem c2_crash_counterexample :
    mainRun "BBCA" respBBCA "ringkasan" [Stmt.exprStmt (Expr.name "requests")]
        "interp" "risiko"
      = RunResult.crashed (PyError.nameError "requests")
          [SectionR.summary "ringkasan"] := rfl

/-- Claim C2 (amended): a fault raised while executing the generated
code propagates out of the chart step unchanged — it is neither caught
nor converted to an `ExecutionError`; the hosting run aborts at that
point. -/
theorem c2_exec_fault_propagates (scope : Env) (code : List Stmt) (e : PyError)
    (h : pyExec code [] [] = Except.error e) :
    visualize_segments scope code = Except.error e := by
  simp [visualize_segments, h]

/-- Witness for C2 (amended): a missing-import fault surfaces as the
very same uncaught exception. -/
theorem c2_propagation_witness :
    pyExec [Stmt.exprStmt (Expr.name "requests")] [] []
        = Except.error (PyError.nameError "requests") ∧
    visualize_segments [] [Stmt.exprStmt (Expr.name "requests")]
        = Except.error (PyError.nameError "requests") :=
  ⟨rfl, c2_exec_fault_propagates [] [Stmt.exprStmt (Expr.name "requests")]
    (PyError.nameError "requests") rfl⟩

/-- Claim C3 is false as stated: when the generated code runs without
binding `fig`, the lookup `exec_locals["fig"]` on source line 106
raises an uncaught `KeyError` — there is no `MissingArtifactError`, no
error indicator, and the other sections do not still render: the run
aborts right after the summary section. -/
theorem c3_crash_counterexample :
    mainRun "BBCA" respBBCA "ringkasan" [Stmt.assign "x" (Expr.lit 1)]
        "interp" "risiko"
      = RunResult.crashed (PyError.keyError "fig")
          [SectionR.summary "ringkasan"] := rfl

/-- Claim C3 (amended): if execution of the generated code succeeds but
the resulting scope lacks the agreed-upon name `fig`, the chart step
fails — it raises the key-lookup fault of `exec_locals["fig"]` rather
than returning an empty or stale result; the fault is uncaught, so
subsequent sections do not render. -/
theorem c3_missing_fig_fails (scope : Env) (code : List Stmt) (l : Env)
    (hok : pyExec code [] [] = Except.ok l)
    (hfig : lookupEnv l "fig" = none) :
    visualize_segments scope code = Except.error (PyError.keyError "fig") := by
  simp [visualize_segments, hok, hfig]

/-- Witness for C3 (amended): code that only binds `x` runs fine but
the chart step fails on the missing `fig`. -/
theorem c3_missing_fig_witness :
    pyExec [Stmt.assign "x" (Expr.lit 1)] [] [] = Except.ok [("x", Val.int 1)] ∧
    lookupEnv [("x", Val.int 1)] "fig" = none ∧
    visualize_segments [] [Stmt.assign "x" (Expr.lit 1)]
      = Except.error (PyError.keyError "fig") :=
  ⟨rfl, rfl, c3_missing_fig_fails [] [Stmt.assign "x" (Expr.lit 1)]
    [("x", Val.int 1)] rfl rfl⟩

/-- Claim C6 is false as stated: on a response that parses as JSON but
lacks `revenue_breakdown`, `segments_summary` raises an uncaught
key-lookup fault (there is no `ParseError` anywhere in the script) and
the run aborts with zero sections rendered — no error section is shown.
Chart synthesis is then indeed not attempted, but only because the
whole run is dead. -/
theorem c6_no_error_section_counterexample :
    mainRun "BBCA"
        (JVal.obj [("symbol", JVal.str "BBCA"), ("financial_year", JVal.int 2023)])
        "ringkasan" [Stmt.assign "fig" (Expr.lit 0)] "interp" "risiko"
      = RunResult.crashed (PyError.keyError "revenue_breakdown") [] := rfl

/-- Claim C6 (amended): for every JSON object response without a
`revenue_breakdown` key, the data step fails with the uncaught
key-lookup fault for that key and the run crashes before rendering any
section; chart synthesis is never attempted, and no error section is
displayed. -/
theorem c6_missing_key_aborts (fields : List (String × JVal))
    (ticker s i r : String) (code : List Stmt)
    (h : jFieldLookup fields "revenue_breakdown" = none) :
    segmentsStep (JVal.obj fields)
        = Except.error (PyError.keyError "revenue_breakdown") ∧
    mainRun ticker (JVal.obj fields) s code i r
        = RunResult.crashed (PyError.keyError "revenue_breakdown") [] := by
  have h1 : segmentsStep (JVal.obj fields)
      = Except.error (PyError.keyError "revenue_breakdown") := by
    simp [segmentsStep, jLookup, h]
  exact ⟨h1, by simp [mainRun, h1]⟩

/-- Witness for C6 (amended) on a response carrying only `symbol`. -/
theorem c6_missing_key_witness :
    jFieldLookup [("symbol", JVal.str "BBCA")] "revenue_breakdown" = none ∧
    mainRun "BBCA" (JVal.obj [("symbol", JVal.str "BBCA")]) "s"
        [Stmt.assign "fig" (Expr.lit 0)] "i" "r"
      = RunResult.crashed (PyError.keyError "revenue_breakdown") [] :=
  ⟨rfl, (c6_missing_key_aborts [("symbol", JVal.str "BBCA")] "BBCA" "s" "i" "r"
    [Stmt.assign "fig" (Expr.lit 0)] rfl).2⟩

/-- Claim C7 is false as stated: per-section errors are not caught at
the presentation boundary. Here the chart step fails on a well-formed
response; the interpretation and risk sections never attempt to render
and no user-visible indicator is produced — the run simply dies after
the summary section. -/
theorem c7_siblings_counterexample :
    mainRun "BBCA" respBBCA "ringkasan" [Stmt.exprStmt (Expr.name "pd")]
        "interp" "risiko"
      = RunResult.crashed (PyError.nameError "pd")
          [SectionR.summary "ringkasan"] := rfl

/-- Claim C7 (amended): `main` (source lines 143-149) has no handler,
so the first failing component aborts the run at that point: sections
already rendered remain, the failing section and every later sibling do
not render, and no error message is displayed. -/
theorem c7_failure_aborts_siblings (ticker : String) (resp : JVal)
    (rows : List SegmentRecord) (s i r : String) (code : List Stmt) (e : PyError)
    (hok : segmentsStep resp = Except.ok rows)
    (hfail : visualize_segments [("ticker", Val.str ticker)] code = Except.error e) :
    mainRun ticker resp s code i r = RunResult.crashed e [SectionR.summary s] := by
  simp [mainRun, hok, hfail]

/-- Witness for C7 (amended): a chart fault on the `"BBCA"` run leaves
only the summary section rendered. -/
theorem c7_aborts_witness :
    segmentsStep respBBCA = Except.ok rowsBBCA ∧
    visualize_segments [("ticker", Val.str "BBCA")] [Stmt.exprStmt (Expr.name "plt")]
        = Except.error (PyError.nameError "plt") ∧
    mainRun "BBCA" respBBCA "s" [Stmt.exprStmt (Expr.name "plt")] "i" "r"
        = RunResult.crashed (PyError.nameError "plt") [SectionR.summary "s"] :=
  ⟨rfl, rfl, c7_failure_aborts_siblings "BBCA" respBBCA rowsBBCA "s" "i" "r"
    [Stmt.exprStmt (Expr.name "plt")] (PyError.nameError "plt") rfl rfl⟩

/-- Witness for C9 on the `"BBCA"` 2023 two-segment response of spec
scenario 1. -/
theorem c9_rows_witness :
    ({ source := "Retail Banking", value := 5000000000000, symbol := "BBCA",
       financial_year := 2023 } : SegmentRecord).symbol = "BBCA" ∧
    ({ source := "Retail Banking", value := 5000000000000, symbol := "BBCA",
       financial_year := 2023 } : SegmentRecord).financial_year = 2023 :=
  rows_share_symbol_year respBBCA rowsBBCA "BBCA" 2023
    { source := "Retail Banking", value := 5000000000000, symbol := "BBCA",
      financial_year := 2023 }
    rfl rfl rfl (by decide)
